import Mathlib

/-!
Verification of the aionFS dev server core (volume-metadata lifecycle
manager) against its natural-language specification.

Shallow embedding of:
- `internal/store/store.go` (FileStore: volumes, snapshots, checkpoints,
  load/flush persistence),
- `internal/httpapi/server.go` (request handlers: create/get/attach/
  detach/delete volume, create snapshot, create/list checkpoints).

Modelling conventions:
- Go `map[string]T` is modelled as an association list `List (String × T)`;
  insertion replaces the binding for an existing key (Go map assignment),
  and map iteration order is the list order (Go iteration order is
  unspecified, and no verified property depends on it).
- `time.Time` is modelled as a natural-number timestamp; Go's zero time
  (`IsZero`) corresponds to `0`.  `time.Time` JSON marshalling (RFC3339
  with nanoseconds, lossless for the UTC times the server produces) is
  modelled as a lossless integer encoding.
- `uuid.NewString()` results are threaded into handlers as explicit
  string parameters; the Go expression `strings.ToLower(u[:8])` (byte
  slicing plus ASCII lowercasing) is modelled by `lower8`.
- The authentication context is `Option String`: `none` models a server
  with no token provider configured (`s.tokens == nil`), `some p` models
  an authenticated request whose bearer token resolved to principal `p`
  (the `requireAuth` middleware guarantees a principal is present
  whenever a token provider is configured, so the unreachable
  "token required" branches are not modelled).
- The disk flush (`flushLocked`) either succeeds or fails wholesale on
  I/O; the in-memory semantics verified here model the success path, and
  the serialized payload it writes is modelled by `encodeState` for the
  persistence round-trip property.
-/

/-- Natural-number model of `time.Time`; `0` is Go's zero time. -/
abbrev Time := Nat

/-- `store.MountInfo` (store.go): the prepared export handle. -/
structure MountInfo where
  mode : String
  hostPath : String
  state : String
deriving Repr, DecidableEq

/-- `store.Session` (store.go): attach metadata for bookkeeping. -/
structure Session where
  sessionID : String
  principal : String
  consumerEndpoint : String
  attachedAt : Time
deriving Repr, DecidableEq

/-- `store.Volume` (store.go).  Go field `Class` is `class'` here because
`class` is a Lean keyword. -/
structure Volume where
  volumeID : String
  ownerPrincipal : String
  class' : String
  quotaBytes : Int
  policyProfile : String
  exportMode : String
  mountHandle : MountInfo
  attachState : String
  attachSession : Option Session
  createdAt : Time
  updatedAt : Time
deriving Repr, DecidableEq

/-- `store.Snapshot` (store.go). -/
structure Snapshot where
  snapshotID : String
  volumeID : String
  createdAt : Time
  note : String
deriving Repr, DecidableEq

/-- `store.Checkpoint` (store.go). -/
structure Checkpoint where
  manifestID : String
  snapshotIDs : List String
  createdAt : Time
  note : String
deriving Repr, DecidableEq

/-- `store.fileState` (store.go), which is also the in-memory content of
`store.FileStore` (fields `volumes`, `snaps`, `cp`). -/
structure FileState where
  volumes : List (String × Volume)
  snapshots : List (String × List Snapshot)
  checkpoints : List (String × Checkpoint)
deriving Repr, DecidableEq

/-- The empty store state (`NewFileStore` before any load). -/
def FileState.empty : FileState := ⟨[], [], []⟩

/-- Go map read `m[k]` (with presence flag). -/
def mapLookup (k : String) (m : List (String × α)) : Option α :=
  (m.find? (fun kv => kv.1 == k)).map (fun kv => kv.2)

/-- Go map delete `delete(m, k)`. -/
def mapErase (k : String) (m : List (String × α)) : List (String × α) :=
  m.filter (fun kv => kv.1 != k)

/-- Go map assignment `m[k] = v`: replaces any existing binding for `k`. -/
def mapInsert (k : String) (v : α) (m : List (String × α)) : List (String × α) :=
  (k, v) :: mapErase k m

/-- `store.ErrVolumeNotFound` and friends. -/
inductive StoreErr where
  | volumeNotFound
deriving Repr, DecidableEq

/-- `FileStore.GetVolume` (store.go). -/
def getVolume (st : FileState) (id : String) : Except StoreErr Volume :=
  match mapLookup id st.volumes with
  | none => .error .volumeNotFound
  | some v => .ok v

/-- `FileStore.ListVolumes` (store.go). -/
def listVolumes (st : FileState) : List Volume :=
  st.volumes.map (fun kv => kv.2)

/-- `FileStore.ListVolumesByOwner` (store.go). -/
def listVolumesByOwner (st : FileState) (owner : String) : List Volume :=
  (st.volumes.filter (fun kv => kv.2.ownerPrincipal == owner)).map (fun kv => kv.2)

/-- `FileStore.PutVolume` (store.go): upsert; stamps `UpdatedAt := now`;
preserves an existing nonzero `CreatedAt`, otherwise stamps it `now`.
The flush success path is modelled (an I/O failure aborts the whole
operation in Go and is outside the pure state semantics). -/
def putVolume (now : Time) (st : FileState) (v : Volume) : Volume × FileState :=
  let created : Time :=
    match mapLookup v.volumeID st.volumes with
    | some existing => if existing.createdAt = 0 then now else existing.createdAt
    | none => now
  let v' : Volume := { v with updatedAt := now, createdAt := created }
  (v', { st with volumes := mapInsert v.volumeID v' st.volumes })

/-- `FileStore.AddSnapshot` (store.go): appends to the volume's history;
fails if the volume is unknown. -/
def addSnapshot (st : FileState) (volumeID : String) (snap : Snapshot) :
    Except StoreErr (Snapshot × FileState) :=
  match mapLookup volumeID st.volumes with
  | none => .error .volumeNotFound
  | some _ =>
    let list := ((mapLookup volumeID st.snapshots).getD []) ++ [snap]
    .ok (snap, { st with snapshots := mapInsert volumeID list st.snapshots })

/-- `FileStore.ListSnapshots` (store.go); a missing entry is the empty
history, as with Go's `s.snaps[volumeID]`. -/
def listSnapshots (st : FileState) (volumeID : String) : List Snapshot :=
  (mapLookup volumeID st.snapshots).getD []

/-- `FileStore.LatestSnapshot` (store.go): the last element of the
ordered history, or none when the history is empty. -/
def latestSnapshot (st : FileState) (volumeID : String) : Option Snapshot :=
  (listSnapshots st volumeID).getLast?

/-- `FileStore.VolumeIDForSnapshot` (store.go): linear scan of all
histories for a snapshot id. -/
def volumeIDForSnapshot (st : FileState) (snapshotID : String) : Option String :=
  (st.snapshots.find? (fun kv => kv.2.any (fun s => s.snapshotID == snapshotID))).map
    (fun kv => kv.1)

/-- `FileStore.PutCheckpoint` (store.go). -/
def putCheckpoint (st : FileState) (cp : Checkpoint) : Checkpoint × FileState :=
  (cp, { st with checkpoints := mapInsert cp.manifestID cp st.checkpoints })

/-- `FileStore.ListCheckpoints` (store.go). -/
def listCheckpoints (st : FileState) : List Checkpoint :=
  st.checkpoints.map (fun kv => kv.2)

/-- `FileStore.DeleteVolume` (store.go): returns the error (if any)
together with the store content after the call, making "state unchanged
on failure" explicit. -/
def deleteVolume (st : FileState) (id : String) : Option StoreErr × FileState :=
  match mapLookup id st.volumes with
  | none => (some .volumeNotFound, st)
  | some _ => (none, { st with volumes := mapErase id st.volumes })

/-- The error taxonomy of `httpapi/server.go` (the `error` code of each
`respondError` call relevant to the verified handlers). -/
inductive ApiError where
  | notFound
  | principalMismatch
  | missingOwner
  | missingPrincipal
  | invalidVolume (vid : String)
  | storeError
deriving Repr, DecidableEq

/-- `httpapi.createVolumeRequest`. -/
structure CreateVolumeRequest where
  ownerPrincipal : String
  class' : String
  quotaBytes : Int
  policyProfile : String
  exportMode : String
deriving Repr, DecidableEq

/-- `httpapi.attachRequest`. -/
structure AttachRequest where
  principal : String
  sessionID : String
  consumerEndpoint : String
deriving Repr, DecidableEq

/-- `httpapi.createCheckpointRequest`. -/
structure CreateCheckpointRequest where
  volumeIDs : List String
  note : String
deriving Repr, DecidableEq

/-- Model of Go `strings.ToLower(u[:8])` on an ASCII uuid string:
take the first eight characters and lowercase each. -/
def lower8 (u : String) : String :=
  String.mk ((u.data.take 8).map Char.toLower)

/-- The recurring handler pattern
`if s.tokens != nil && vol.OwnerPrincipal != principal { principal_mismatch }`. -/
def checkOwner (auth : Option String) (vol : Volume) : Except ApiError Unit :=
  match auth with
  | none => .ok ()
  | some p => if vol.ownerPrincipal ≠ p then .error .principalMismatch else .ok ()

/-- The owner-defaulting block of `handleCreateVolume` (server.go
lines 127-137): an empty owner is replaced by the caller's principal in
authenticated mode and rejected in unauthenticated mode; a supplied
owner different from the caller's principal is rejected. -/
def resolveOwner (auth : Option String) (reqOwner : String) : Except ApiError String :=
  if reqOwner = "" then
    match auth with
    | some p => .ok p
    | none => .error .missingOwner
  else
    match auth with
    | some p => if reqOwner ≠ p then .error .principalMismatch else .ok reqOwner
    | none => .ok reqOwner

/-- `handleCreateVolume` (server.go): defaults `export_mode` to `fs` and
`class` to `persistent`, generates `vol-` plus the lowercased first
eight uuid characters, derives the host path under
`/run/aionfs/mounts`, starts `available` with no session, and upserts
through `PutVolume`. -/
def handleCreateVolume (now : Time) (uuid : String) (auth : Option String)
    (st : FileState) (req : CreateVolumeRequest) :
    Except ApiError (Volume × FileState) :=
  match resolveOwner auth req.ownerPrincipal with
  | .error e => .error e
  | .ok owner =>
    let exportMode := if req.exportMode = "" then "fs" else req.exportMode
    let class0 := if req.class' = "" then "persistent" else req.class'
    let volumeID := "vol-" ++ lower8 uuid
    let hostPath := "/run/aionfs/mounts/" ++ volumeID
    let v : Volume :=
      { volumeID := volumeID
        ownerPrincipal := owner
        class' := class0
        quotaBytes := req.quotaBytes
        policyProfile := req.policyProfile
        exportMode := exportMode
        mountHandle := { mode := exportMode, hostPath := hostPath, state := "available" }
        attachState := "available"
        attachSession := none
        createdAt := 0
        updatedAt := 0 }
    .ok (putVolume now st v)

/-- `handleGetVolume` (server.go): store lookup first (`not_found`),
then the ownership gate in authenticated mode. -/
def handleGetVolume (auth : Option String) (st : FileState) (id : String) :
    Except ApiError Volume :=
  match mapLookup id st.volumes with
  | none => .error .notFound
  | some v =>
    match checkOwner auth v with
    | .error e => .error e
    | .ok _ => .ok v

/-- `handleAttachVolume` (server.go): lookup, then default an empty body
principal to the authenticated principal (rejecting an empty principal
in unauthenticated mode), compare the effective principal against the
volume owner, generate a session id when the body has none, and store
the attached record. -/
def handleAttachVolume (now : Time) (uuid : String) (auth : Option String)
    (st : FileState) (id : String) (req : AttachRequest) :
    Except ApiError (Volume × FileState) :=
  match mapLookup id st.volumes with
  | none => .error .notFound
  | some vol =>
    match (if req.principal = "" then
             match auth with
             | some p => Except.ok p
             | none => Except.error ApiError.missingPrincipal
           else Except.ok req.principal : Except ApiError String) with
    | .error e => .error e
    | .ok eff =>
      if eff ≠ vol.ownerPrincipal then .error .principalMismatch
      else
        let sid := if req.sessionID = "" then "sess-" ++ lower8 uuid else req.sessionID
        let vol' : Volume :=
          { vol with
            attachState := "attached"
            mountHandle := { vol.mountHandle with state := "attached" }
            attachSession := some
              { sessionID := sid
                principal := eff
                consumerEndpoint := req.consumerEndpoint
                attachedAt := now } }
        .ok (putVolume now st vol')

/-- `handleDetachVolume` (server.go): lookup, ownership gate in
authenticated mode, then unconditionally clear the session and force
`available`, and store. -/
def handleDetachVolume (now : Time) (auth : Option String) (st : FileState)
    (id : String) : Except ApiError (Volume × FileState) :=
  match mapLookup id st.volumes with
  | none => .error .notFound
  | some vol =>
    match checkOwner auth vol with
    | .error e => .error e
    | .ok _ =>
      let vol' : Volume :=
        { vol with
          attachState := "available"
          mountHandle := { vol.mountHandle with state := "available" }
          attachSession := none }
      .ok (putVolume now st vol')

/-- `handleDeleteVolume` (server.go): in authenticated mode, lookup and
ownership gate first; then `DeleteVolume` (whose not-found error maps to
`not_found`). -/
def handleDeleteVolume (auth : Option String) (st : FileState) (id : String) :
    Except ApiError FileState :=
  match (match auth with
         | none => Except.ok ()
         | some p =>
           match mapLookup id st.volumes with
           | none => Except.error ApiError.notFound
           | some vol =>
             if vol.ownerPrincipal ≠ p then Except.error ApiError.principalMismatch
             else Except.ok () : Except ApiError Unit) with
  | .error e => .error e
  | .ok _ =>
    match deleteVolume st id with
    | (some _, _) => .error .notFound
    | (none, st') => .ok st'

/-- `handleCreateSnapshot` (server.go): lookup, ownership gate, then
`AddSnapshot` with a generated `snap-` id and the request note. -/
def handleCreateSnapshot (now : Time) (uuid : String) (auth : Option String)
    (st : FileState) (id : String) (note : String) :
    Except ApiError (Snapshot × FileState) :=
  match mapLookup id st.volumes with
  | none => .error .notFound
  | some vol =>
    match checkOwner auth vol with
    | .error e => .error e
    | .ok _ =>
      match addSnapshot st id
          { snapshotID := "snap-" ++ lower8 uuid
            volumeID := id
            createdAt := now
            note := note } with
      | .error _ => .error .notFound
      | .ok (snap, st') => .ok (snap, st')

/-- `handleListSnapshots` (server.go): lookup, ownership gate, then the
ordered history. -/
def handleListSnapshots (auth : Option String) (st : FileState) (id : String) :
    Except ApiError (List Snapshot) :=
  match mapLookup id st.volumes with
  | none => .error .notFound
  | some vol =>
    match checkOwner auth vol with
    | .error e => .error e
    | .ok _ => .ok (listSnapshots st id)

/-- The per-volume loop of `handleCreateCheckpoint` (server.go lines
475-501): resolve each volume (`invalid_volume` on unknown ids),
ownership gate, reuse the latest snapshot or auto-create one with the
note `auto-generated for checkpoint`, and collect snapshot ids in
request order.  `fresh i` is the uuid consumed by the i-th auto-created
snapshot. -/
def collectSnapshotIDs (now : Time) (fresh : Nat → String) (auth : Option String) :
    List String → Nat → FileState → Except ApiError (List String × FileState)
  | [], _, st => .ok ([], st)
  | vid :: rest, i, st =>
    match mapLookup vid st.volumes with
    | none => .error (.invalidVolume vid)
    | some vol =>
      match checkOwner auth vol with
      | .error e => .error e
      | .ok _ =>
        match (match latestSnapshot st vid with
               | some snap => Except.ok (snap.snapshotID, st)
               | none =>
                 match addSnapshot st vid
                     { snapshotID := "snap-" ++ lower8 (fresh i)
                       volumeID := vid
                       createdAt := now
                       note := "auto-generated for checkpoint" } with
                 | .error _ => Except.error ApiError.storeError
                 | .ok (snap, st1) => Except.ok (snap.snapshotID, st1)
               : Except ApiError (String × FileState)) with
        | .error e => .error e
        | .ok (sid, st1) =>
          match collectSnapshotIDs now fresh auth rest (i + 1) st1 with
          | .error e => .error e
          | .ok (sids, st2) => .ok (sid :: sids, st2)

/-- `handleCreateCheckpoint` (server.go): an empty `volume_ids` list
defaults to the caller's volumes (authenticated) or all volumes; the
per-volume loop collects latest-or-auto-created snapshot ids; a fresh
`chk-` manifest is stored. -/
def handleCreateCheckpoint (now : Time) (fresh : Nat → String)
    (manifestUuid : String) (auth : Option String) (st : FileState)
    (req : CreateCheckpointRequest) : Except ApiError (Checkpoint × FileState) :=
  let volumeIDs :=
    if req.volumeIDs = [] then
      match auth with
      | some p => (listVolumesByOwner st p).map (fun v => v.volumeID)
      | none => (listVolumes st).map (fun v => v.volumeID)
    else req.volumeIDs
  match collectSnapshotIDs now fresh auth volumeIDs 0 st with
  | .error e => .error e
  | .ok (sids, st1) =>
    let manifest : Checkpoint :=
      { manifestID := "chk-" ++ lower8 manifestUuid
        snapshotIDs := sids
        createdAt := now
        note := req.note }
    .ok (putCheckpoint st1 manifest)

/-- The include-loop of `handleListCheckpoints` (server.go lines
534-543): a manifest is excluded as soon as one of its snapshot ids
resolves to a volume outside the caller's owned set; an id that
resolves to no volume does not exclude. -/
def cpIncluded (st : FileState) (owned : List String) : List String → Bool
  | [] => true
  | sid :: rest =>
    match volumeIDForSnapshot st sid with
    | some vid => if owned.contains vid then cpIncluded st owned rest else false
    | none => cpIncluded st owned rest

/-- `handleListCheckpoints` (server.go): all manifests when
unauthenticated; in authenticated mode, keep (in order, whole) exactly
the manifests the include-loop accepts against the caller's owned
volume-id set. -/
def handleListCheckpoints (auth : Option String) (st : FileState) : List Checkpoint :=
  let manifests := listCheckpoints st
  match auth with
  | none => manifests
  | some p =>
    let owned := (listVolumesByOwner st p).map (fun v => v.volumeID)
    manifests.filter (fun cp => cpIncluded st owned cp.snapshotIDs)

/-- Success test on handler results. -/
def isOkB : Except ApiError α → Bool
  | .ok _ => true
  | .error _ => false

/-- JSON values, as produced/consumed by Go `encoding/json` for the
state file (the server's numbers are int64 and model timestamps, so an
integer number type suffices). -/
inductive Json where
  | null
  | bool (b : Bool)
  | num (n : Int)
  | str (s : String)
  | arr (xs : List Json)
  | obj (fields : List (String × Json))

/-- Field lookup in a decoded JSON object. -/
def jGet (fields : List (String × Json)) (k : String) : Option Json :=
  mapLookup k fields

/-- Go decode of a string struct field: a missing field or JSON `null`
leaves the zero value; a string sets it; any other value is a decode
error. -/
def decStr : Option Json → Option String
  | none => some ""
  | some .null => some ""
  | some (.str s) => some s
  | some _ => none

/-- Go decode of an int64 struct field. -/
def decInt : Option Json → Option Int
  | none => some 0
  | some .null => some 0
  | some (.num n) => some n
  | some _ => none

/-- Decode of the timestamp model (`time.Time` RFC3339 marshalling is
lossless for the UTC instants the server writes; modelled as a
non-negative integer). -/
def decTime : Option Json → Option Time
  | none => some 0
  | some .null => some 0
  | some (.num (.ofNat t)) => some t
  | some _ => none

/-- JSON encoding of the timestamp model. -/
def timeJson (t : Time) : Json := .num (.ofNat t)

/-- `store.MountInfo` JSON marshalling (struct tag order). -/
def MountInfo.toJson (m : MountInfo) : Json :=
  .obj [( "mode", .str m.mode), ( "host_path", .str m.hostPath), ( "state", .str m.state)]

/-- `store.MountInfo` JSON unmarshalling; `null` leaves the zero value. -/
def MountInfo.fromJson : Option Json → Option MountInfo
  | none => some ⟨ "", "", ""⟩
  | some .null => some ⟨ "", "", ""⟩
  | some (.obj f) => do
    let mode ← decStr (jGet f "mode")
    let hostPath ← decStr (jGet f "host_path")
    let state ← decStr (jGet f "state")
    pure ⟨mode, hostPath, state⟩
  | some _ => none

/-- `store.Session` JSON marshalling. -/
def Session.toJson (s : Session) : Json :=
  .obj [( "session_id", .str s.sessionID), ( "principal", .str s.principal),
        ( "consumer_endpoint", .str s.consumerEndpoint),
        ( "attached_at", timeJson s.attachedAt)]

/-- `store.Session` JSON unmarshalling (an object; the `*Session` null
case is handled at the `Volume` field). -/
def Session.fromJson : Json → Option Session
  | .obj f => do
    let sid ← decStr (jGet f "session_id")
    let p ← decStr (jGet f "principal")
    let ce ← decStr (jGet f "consumer_endpoint")
    let at' ← decTime (jGet f "attached_at")
    pure ⟨sid, p, ce, at'⟩
  | _ => none

/-- `store.Volume` JSON marshalling: struct field order, with
`attach_session,omitempty` dropping a nil session. -/
def Volume.toJson (v : Volume) : Json :=
  .obj ([( "volume_id", .str v.volumeID), ( "owner_principal", .str v.ownerPrincipal),
         ( "class", .str v.class'), ( "quota_bytes", .num v.quotaBytes),
         ( "policy_profile", .str v.policyProfile), ( "export_mode", .str v.exportMode),
         ( "mount_handle", v.mountHandle.toJson), ( "attach_state", .str v.attachState)]
        ++ (match v.attachSession with
            | none => []
            | some s => [( "attach_session", s.toJson)])
        ++ [( "created_at", timeJson v.createdAt), ( "updated_at", timeJson v.updatedAt)])

/-- `store.Volume` JSON unmarshalling; `null` for the pointer field
leaves it nil. -/
def Volume.fromJson : Json → Option Volume
  | .null => some ⟨ "", "", "", 0, "", "", ⟨ "", "", ""⟩, "", none, 0, 0⟩
  | .obj f => do
    let vid ← decStr (jGet f "volume_id")
    let owner ← decStr (jGet f "owner_principal")
    let cls ← decStr (jGet f "class")
    let quota ← decInt (jGet f "quota_bytes")
    let pp ← decStr (jGet f "policy_profile")
    let em ← decStr (jGet f "export_mode")
    let mh ← MountInfo.fromJson (jGet f "mount_handle")
    let as' ← decStr (jGet f "attach_state")
    let sess ← (match jGet f "attach_session" with
                | none => some none
                | some .null => some none
                | some j => (Session.fromJson j).map some : Option (Option Session))
    let ca ← decTime (jGet f "created_at")
    let ua ← decTime (jGet f "updated_at")
    pure ⟨vid, owner, cls, quota, pp, em, mh, as', sess, ca, ua⟩
  | _ => none

/-- `store.Snapshot` JSON marshalling (`note,omitempty`). -/
def Snapshot.toJson (s : Snapshot) : Json :=
  .obj ([( "snapshot_id", .str s.snapshotID), ( "volume_id", .str s.volumeID),
         ( "created_at", timeJson s.createdAt)]
        ++ (if s.note = "" then [] else [( "note", .str s.note)]))

/-- `store.Snapshot` JSON unmarshalling. -/
def Snapshot.fromJson : Json → Option Snapshot
  | .null => some ⟨ "", "", 0, ""⟩
  | .obj f => do
    let sid ← decStr (jGet f "snapshot_id")
    let vid ← decStr (jGet f "volume_id")
    let ca ← decTime (jGet f "created_at")
    let note ← decStr (jGet f "note")
    pure ⟨sid, vid, ca, note⟩
  | _ => none

/-- Decode a JSON array element-wise. -/
def decodeArr (dec : Json → Option α) : List Json → Option (List α)
  | [] => some []
  | j :: rest =>
    match dec j, decodeArr dec rest with
    | some a, some as' => some (a :: as')
    | _, _ => none

/-- Decode one element of a `[]string` value. -/
def decStrElem : Json → Option String
  | .str s => some s
  | _ => none

/-- Decode a JSON array of strings (a `[]string` field: `null` decodes
to the nil slice). -/
def decStrList : Option Json → Option (List String)
  | none => some []
  | some .null => some []
  | some (.arr js) => decodeArr decStrElem js
  | some _ => none

/-- `store.Checkpoint` JSON marshalling. -/
def Checkpoint.toJson (c : Checkpoint) : Json :=
  .obj ([( "manifest_id", .str c.manifestID),
         ( "snapshot_ids", .arr (c.snapshotIDs.map .str)),
         ( "created_at", timeJson c.createdAt)]
        ++ (if c.note = "" then [] else [( "note", .str c.note)]))

/-- `store.Checkpoint` JSON unmarshalling. -/
def Checkpoint.fromJson : Json → Option Checkpoint
  | .null => some ⟨ "", [], 0, ""⟩
  | .obj f => do
    let mid ← decStr (jGet f "manifest_id")
    let sids ← decStrList (jGet f "snapshot_ids")
    let ca ← decTime (jGet f "created_at")
    let note ← decStr (jGet f "note")
    pure ⟨mid, sids, ca, note⟩
  | _ => none

/-- Decode the entries of a JSON object into a keyed collection (a Go
`map[string]T`), element-wise. -/
def decodeKeyed (dec : Json → Option α) : List (String × Json) → Option (List (String × α))
  | [] => some []
  | (k, j) :: rest =>
    match dec j, decodeKeyed dec rest with
    | some a, some as' => some ((k, a) :: as')
    | _, _ => none

/-- Decode a snapshot history (`[]Snapshot`). -/
def snapListFromJson : Json → Option (List Snapshot)
  | .null => some []
  | .arr js => decodeArr Snapshot.fromJson js
  | _ => none

/-- Encode the `volumes` map of `store.fileState`. -/
def encodeVolumes (m : List (String × Volume)) : Json :=
  .obj (m.map (fun kv => (kv.1, kv.2.toJson)))

/-- Decode the `volumes` map; a missing or `null` field is the nil map,
which `load` replaces with the empty map. -/
def decodeVolumes : Option Json → Option (List (String × Volume))
  | none => some []
  | some .null => some []
  | some (.obj f) => decodeKeyed Volume.fromJson f
  | some _ => none

/-- Encode the `snapshots` map of `store.fileState`. -/
def encodeSnapshots (m : List (String × List Snapshot)) : Json :=
  .obj (m.map (fun kv => (kv.1, Json.arr (kv.2.map Snapshot.toJson))))

/-- Decode the `snapshots` map. -/
def decodeSnapshots : Option Json → Option (List (String × List Snapshot))
  | none => some []
  | some .null => some []
  | some (.obj f) => decodeKeyed snapListFromJson f
  | some _ => none

/-- Encode the `checkpoints` map of `store.fileState`. -/
def encodeCheckpoints (m : List (String × Checkpoint)) : Json :=
  .obj (m.map (fun kv => (kv.1, kv.2.toJson)))

/-- Decode the `checkpoints` map. -/
def decodeCheckpoints : Option Json → Option (List (String × Checkpoint))
  | none => some []
  | some .null => some []
  | some (.obj f) => decodeKeyed Checkpoint.fromJson f
  | some _ => none

/-- The payload written by `flushLocked` (store.go lines 271-295): the
whole `fileState` serialized as one JSON document. -/
def encodeState (st : FileState) : Json :=
  .obj [( "volumes", encodeVolumes st.volumes),
        ( "snapshots", encodeSnapshots st.snapshots),
        ( "checkpoints", encodeCheckpoints st.checkpoints)]

/-- Decode of the state document into `fileState` (Go struct decode: a
top-level `null` is a no-op that leaves the nil maps; any other
non-object fails). -/
def decodeState : Json → Option FileState
  | .null => some FileState.empty
  | .obj f => do
    let vs ← decodeVolumes (jGet f "volumes")
    let ss ← decodeSnapshots (jGet f "snapshots")
    let cs ← decodeCheckpoints (jGet f "checkpoints")
    pure ⟨vs, ss, cs⟩
  | _ => none

/-- `FileStore.load` (store.go lines 234-263): an absent state file
(`none`) is not an error and yields empty state; a present file that
fails to decode is a fatal error; otherwise the three collections are
taken from the decoded document (nil maps replaced by empty ones inside
the decoders). -/
def loadState : Option Json → Except String FileState
  | none => .ok FileState.empty
  | some j =>
    match decodeState j with
    | some fs => .ok fs
    | none => .error "decode state"

/-- The per-record session invariant of §3 of the spec:
`attach_session` is non-null exactly when `attach_state == attached`. -/
def sessionInv (v : Volume) : Prop :=
  v.attachSession ≠ none ↔ v.attachState = "attached"

/-- All stored volume records satisfy the session invariant. -/
def volumesInv (st : FileState) : Prop :=
  ∀ id v, mapLookup id st.volumes = some v → sessionInv v

/-- Store states reachable from the empty state through the API
operations that create or modify volume records.  The registry upsert
(`PutVolume`) is invoked by the program only from these three handlers
(create, attach, detach), so these steps cover every update the program
performs on a volume record. -/
inductive Reachable : FileState → Prop
  | empty : Reachable FileState.empty
  | create {now : Time} {uuid : String} {auth : Option String} {st : FileState}
      {req : CreateVolumeRequest} {v : Volume} {st' : FileState} :
      Reachable st → handleCreateVolume now uuid auth st req = .ok (v, st') →
      Reachable st'
  | attach {now : Time} {uuid : String} {auth : Option String} {st : FileState}
      {id : String} {req : AttachRequest} {v : Volume} {st' : FileState} :
      Reachable st → handleAttachVolume now uuid auth st id req = .ok (v, st') →
      Reachable st'
  | detach {now : Time} {auth : Option String} {st : FileState} {id : String}
      {v : Volume} {st' : FileState} :
      Reachable st → handleDetachVolume now auth st id = .ok (v, st') →
      Reachable st'

/-- The record stored by a successful detach: session cleared, both
states forced to `available`, `updated_at` refreshed, `created_at`
re-stamped only when the stored one was the zero time. -/
def detachedVol (v : Volume) (now : Time) : Volume :=
  { v with
    attachState := "available"
    mountHandle := { v.mountHandle with state := "available" }
    attachSession := none
    updatedAt := now
    createdAt := if v.createdAt = 0 then now else v.createdAt }

/-- The hexadecimal digits (`uuid.NewString` emits only these and
dashes; the first eight characters are digits). -/
def hexDigits : List Char := "0123456789abcdefABCDEF".data

/-- The lowercase hexadecimal digits of the `vol-<8 hex>` pattern. -/
def lowerHexDigits : List Char := "0123456789abcdef".data

/-- Test fixture: a volume owned by principal `A`. -/
def volA : Volume :=
  { volumeID := "vol-1"
    ownerPrincipal := "A"
    class' := "persistent"
    quotaBytes := 1
    policyProfile := ""
    exportMode := "fs"
    mountHandle := { mode := "fs", hostPath := "/run/aionfs/mounts/vol-1", state := "available" }
    attachState := "available"
    attachSession := none
    createdAt := 1
    updatedAt := 1 }

/-- Test fixture: a store holding only `volA`. -/
def stA : FileState := ⟨[( "vol-1", volA)], [], []⟩

/-- Test fixture: a volume owned by principal `P`. -/
def volP : Volume := { volA with volumeID := "vol-p", ownerPrincipal := "P" }

/-- Test fixture: a manifest referencing a snapshot id that belongs to
no volume. -/
def cpDangling : Checkpoint := ⟨ "chk-1", ["snap-x"], 2, ""⟩

/-- Test fixture: a store with one volume of `P` and one dangling
manifest. -/
def stC5 : FileState := ⟨[( "vol-p", volP)], [], [( "chk-1", cpDangling)]⟩

/-- Test fixture: a stored record whose `created_at` is the zero time. -/
def volZ : Volume := { volA with volumeID := "vol-z", createdAt := 0, updatedAt := 0 }

/-- Test fixture: a store holding only `volZ`. -/
def stC7 : FileState := ⟨[( "vol-z", volZ)], [], []⟩

/-- Test fixture: the create-volume request of the spec's example
scenario. -/
def reqW : CreateVolumeRequest :=
  { ownerPrincipal := "service:app1", class' := "", quotaBytes := 21474836480,
    policyProfile := "", exportMode := "" }

/-- Test fixture: the record produced by creating `reqW` at time 1 with
uuid `0123abcd-e`. -/
def volW : Volume :=
  { volumeID := "vol-0123abcd"
    ownerPrincipal := "service:app1"
    class' := "persistent"
    quotaBytes := 21474836480
    policyProfile := ""
    exportMode := "fs"
    mountHandle := { mode := "fs", hostPath := "/run/aionfs/mounts/vol-0123abcd", state := "available" }
    attachState := "available"
    attachSession := none
    createdAt := 1
    updatedAt := 1 }

/-- Test fixture: the store after that create. -/
def stW : FileState := ⟨[( "vol-0123abcd", volW)], [], []⟩

/-- Test fixture: a constant uuid supply for auto-created snapshots. -/
def freshW : Nat → String := fun _ => "aaaabbbb-c"

/-- Test fixture: the snapshot auto-created by checkpointing `stA`. -/
def snapW : Snapshot := ⟨ "snap-aaaabbbb", "vol-1", 2, "auto-generated for checkpoint"⟩

/-- Test fixture: the manifest created by checkpointing `stA`. -/
def cpW : Checkpoint := ⟨ "chk-mu", ["snap-aaaabbbb"], 2, ""⟩

/-- Test fixture: the store after checkpointing `stA` at time 2. -/
def stW4 : FileState := ⟨[( "vol-1", volA)], [( "vol-1", [snapW])], [( "chk-mu", cpW)]⟩

theorem mapLookup_erase (k k' : String) (m : List (String × α)) :
    mapLookup k (mapErase k' m) = if k = k' then none else mapLookup k m := by
  induction m with
  | nil => simp [mapLookup, mapErase]
  | cons kv rest ih =>
    by_cases h1 : kv.1 = k' <;> by_cases h2 : kv.1 = k <;>
      simp_all [mapLookup, mapErase, List.find?_cons, List.filter_cons]

theorem mapLookup_insert (k k' : String) (v : α) (m : List (String × α)) :
    mapLookup k (mapInsert k' v m) = if k = k' then some v else mapLookup k m := by
  by_cases h : k = k'
  · simp [mapInsert, mapLookup, List.find?_cons, h]
  · have h' : (k' == k) = false := by simp [Ne.symm h]
    simp [mapInsert, mapLookup, List.find?_cons, h', h]
    have := mapLookup_erase k k' m
    simp [if_neg h, mapLookup] at this
    exact this

theorem mountInfo_roundtrip (m : MountInfo) :
    MountInfo.fromJson (some m.toJson) = some m := by
  cases m
  rfl

theorem session_roundtrip (s : Session) :
    Session.fromJson s.toJson = some s := by
  cases s
  rfl

theorem volume_roundtrip (v : Volume) :
    Volume.fromJson v.toJson = some v := by
  cases v with
  | mk vid owner cls quota pp em mh as' sess ca ua =>
    cases mh
    cases sess <;> rfl

theorem snapshot_roundtrip (s : Snapshot) :
    Snapshot.fromJson s.toJson = some s := by
  cases s with
  | mk sid vid ca note =>
    by_cases h : note = ""
    · subst h
      rfl
    · simp only [Snapshot.toJson, if_neg h]
      rfl

theorem decodeArr_map (dec : Json → Option α) (enc : α → Json)
    (hrt : ∀ a, dec (enc a) = some a) (l : List α) :
    decodeArr dec (l.map enc) = some l := by
  induction l with
  | nil => rfl
  | cons a rest ih => simp [decodeArr, hrt, ih]

theorem checkpoint_roundtrip (c : Checkpoint) :
    Checkpoint.fromJson c.toJson = some c := by
  cases c with
  | mk mid sids ca note =>
    have hl : decStrList (some (.arr (sids.map .str))) = some sids := by
      simp only [decStrList]
      exact decodeArr_map decStrElem Json.str (fun a => rfl) sids
    by_cases h : note = ""
    · subst h
      simp only [Checkpoint.toJson, if_pos rfl, List.append_nil, Checkpoint.fromJson]
      simp [jGet, mapLookup, List.find?_cons, decStr, decTime, timeJson, hl, Option.bind]
    · simp only [Checkpoint.toJson, if_neg h, Checkpoint.fromJson]
      simp [jGet, mapLookup, List.find?_cons, decStr, decTime, timeJson, hl, Option.bind]

theorem decodeKeyed_map (dec : Json → Option α) (enc : α → Json)
    (hrt : ∀ a, dec (enc a) = some a) (m : List (String × α)) :
    decodeKeyed dec (m.map (fun kv => (kv.1, enc kv.2))) = some m := by
  induction m with
  | nil => rfl
  | cons kv rest ih => simp [decodeKeyed, hrt, ih]

theorem snapList_roundtrip (l : List Snapshot) :
    snapListFromJson (.arr (l.map Snapshot.toJson)) = some l := by
  simp only [snapListFromJson]
  exact decodeArr_map Snapshot.fromJson Snapshot.toJson snapshot_roundtrip l

theorem decodeState_encodeState (st : FileState) :
    decodeState (encodeState st) = some st := by
  cases st with
  | mk vs ss cs =>
    have hv : decodeVolumes (some (encodeVolumes vs)) = some vs := by
      simp only [encodeVolumes, decodeVolumes]
      exact decodeKeyed_map Volume.fromJson Volume.toJson volume_roundtrip vs
    have hs : decodeSnapshots (some (encodeSnapshots ss)) = some ss := by
      simp only [encodeSnapshots, decodeSnapshots]
      exact decodeKeyed_map snapListFromJson (fun l => Json.arr (l.map Snapshot.toJson))
        snapList_roundtrip ss
    have hc : decodeCheckpoints (some (encodeCheckpoints cs)) = some cs := by
      simp only [encodeCheckpoints, decodeCheckpoints]
      exact decodeKeyed_map Checkpoint.fromJson Checkpoint.toJson checkpoint_roundtrip cs
    simp [encodeState, decodeState, jGet, mapLookup, List.find?_cons, hv, hs, hc, Option.bind]

theorem putVolume_inv (now : Time) (st : FileState) (v : Volume)
    (hst : volumesInv st) (hv : sessionInv v) :
    volumesInv (putVolume now st v).2 := by
  intro id w hw
  simp only [putVolume] at hw
  rw [mapLookup_insert] at hw
  split at hw
  · cases hw
    simpa [sessionInv] using hv
  · exact hst id w hw

theorem create_ok_cases {now : Time} {uuid : String} {auth : Option String}
    {st : FileState} {req : CreateVolumeRequest} {v : Volume} {st' : FileState}
    (h : handleCreateVolume now uuid auth st req = .ok (v, st')) :
    ∃ w : Volume, w.attachState = "available" ∧ w.attachSession = none ∧
      (v, st') = putVolume now st w := by
  simp only [handleCreateVolume] at h
  split at h
  · exact Except.noConfusion h
  · injection h with h
    exact ⟨_, rfl, rfl, h.symm⟩

theorem attach_ok_cases {now : Time} {uuid : String} {auth : Option String}
    {st : FileState} {id : String} {req : AttachRequest} {v : Volume} {st' : FileState}
    (h : handleAttachVolume now uuid auth st id req = .ok (v, st')) :
    ∃ w : Volume, w.attachState = "attached" ∧ (∃ s, w.attachSession = some s) ∧
      (v, st') = putVolume now st w := by
  simp only [handleAttachVolume] at h
  split at h
  · exact Except.noConfusion h
  · split at h
    · exact Except.noConfusion h
    · split at h
      · exact Except.noConfusion h
      · injection h with h
        exact ⟨_, rfl, ⟨_, rfl⟩, h.symm⟩

theorem detach_ok_cases {now : Time} {auth : Option String} {st : FileState}
    {id : String} {v : Volume} {st' : FileState}
    (h : handleDetachVolume now auth st id = .ok (v, st')) :
    ∃ w : Volume, w.attachState = "available" ∧ w.attachSession = none ∧
      (v, st') = putVolume now st w := by
  simp only [handleDetachVolume] at h
  split at h
  · exact Except.noConfusion h
  · split at h
    · exact Except.noConfusion h
    · injection h with h
      exact ⟨_, rfl, rfl, h.symm⟩

/-- Claim C2 (confirmed): every volume record in a store state reachable
from the empty state through the volume-mutating API operations (create,
attach, detach — the registry upsert is invoked only from these) has a
non-null `attach_session` exactly when `attach_state == attached`; and a
freshly created record is `available` with a null session.  Repeated
detach of an already-available volume is a `Reachable.detach` step, so
the invariant survives it. -/
theorem c2_session_invariant :
    (∀ st, Reachable st → volumesInv st) ∧
    (∀ (now : Time) (uuid : String) (auth : Option String) (st : FileState)
       (req : CreateVolumeRequest) (v : Volume) (st' : FileState),
      handleCreateVolume now uuid auth st req = .ok (v, st') →
      v.attachState = "available" ∧ v.attachSession = none) := by
  constructor
  · intro st h
    induction h with
    | empty =>
      intro id v hv
      simp [FileState.empty, mapLookup] at hv
    | create hr hstep ih =>
      obtain ⟨w, hws, hwn, heq⟩ := create_ok_cases hstep
      have hst' := congrArg Prod.snd heq
      simp only at hst'
      rw [hst']
      refine putVolume_inv _ _ _ ih ?_
      simp [sessionInv, hws, hwn]
    | attach hr hstep ih =>
      obtain ⟨w, hws, ⟨s, hwn⟩, heq⟩ := attach_ok_cases hstep
      have hst' := congrArg Prod.snd heq
      simp only at hst'
      rw [hst']
      refine putVolume_inv _ _ _ ih ?_
      simp [sessionInv, hws, hwn]
    | detach hr hstep ih =>
      obtain ⟨w, hws, hwn, heq⟩ := detach_ok_cases hstep
      have hst' := congrArg Prod.snd heq
      simp only at hst'
      rw [hst']
      refine putVolume_inv _ _ _ ih ?_
      simp [sessionInv, hws, hwn]
  · intro now uuid auth st req v st' h
    obtain ⟨w, hws, hwn, heq⟩ := create_ok_cases h
    have hv := congrArg Prod.fst heq
    simp only at hv
    rw [hv]
    constructor <;> simp [putVolume, hws, hwn]

/-- Witness for C2: the record created by the spec's example request in
the empty store satisfies the session invariant. -/
theorem c2_session_invariant_witness : sessionInv volW := by
  have hstep : handleCreateVolume 1 "0123abcd-e" none FileState.empty reqW = .ok (volW, stW) := by
    rfl
  exact c2_session_invariant.1 stW (Reachable.create Reachable.empty hstep) "vol-0123abcd" volW
    (by rfl)

/-- Claim C3 (confirmed): serializing a store state with the flush
payload and reloading it yields element-wise equal volumes, snapshot
sequences and checkpoints; loading with no state file present yields the
empty state without error; loading a malformed state file is an error
(fatal at startup). -/
theorem c3_persistence_roundtrip :
    (∀ st : FileState, loadState (some (encodeState st)) = .ok st) ∧
    loadState none = .ok FileState.empty ∧
    loadState (some (.str "not the state document")) = .error "decode state" := by
  refine ⟨fun st => ?_, rfl, rfl⟩
  simp [loadState, decodeState_encodeState st]

/-- Counterexample for C7: a stored record whose `created_at` is the
zero time does not keep its original `created_at` across an update —
`PutVolume` re-stamps it with the operation time. -/
theorem c7_counterexample :
    mapLookup "vol-z" stC7.volumes = some volZ ∧ volZ.createdAt = 0 ∧
    (putVolume 5 stC7 volZ).1.createdAt ≠ volZ.createdAt := by
  refine ⟨rfl, rfl, ?_⟩
  decide

/-- Claim C7 (corrected): `PutVolume` always refreshes `updated_at` to
the operation time and stores the result under the record's id; when the
id already exists it preserves the original `created_at` only when that
is nonzero, re-stamping a zero `created_at` (and a fresh id's
`created_at`) with the operation time. -/
theorem c7_put_upsert (now : Time) (st : FileState) (v : Volume) :
    (putVolume now st v).1.updatedAt = now ∧
    mapLookup v.volumeID (putVolume now st v).2.volumes = some (putVolume now st v).1 ∧
    (∀ ex, mapLookup v.volumeID st.volumes = some ex → ex.createdAt ≠ 0 →
      (putVolume now st v).1.createdAt = ex.createdAt) ∧
    (∀ ex, mapLookup v.volumeID st.volumes = some ex → ex.createdAt = 0 →
      (putVolume now st v).1.createdAt = now) ∧
    (mapLookup v.volumeID st.volumes = none → (putVolume now st v).1.createdAt = now) := by
  refine ⟨rfl, ?_, ?_, ?_, ?_⟩
  · simp [putVolume, mapLookup_insert]
  · intro ex hex hne
    simp [putVolume, hex, hne]
  · intro ex hex h0
    simp [putVolume, hex, h0]
  · intro h
    simp [putVolume, h]

/-- Witness for C7: updating the existing record `volA` (nonzero
`created_at`) preserves its `created_at` and refreshes `updated_at`. -/
theorem c7_put_upsert_witness :
    (putVolume 5 stA volA).1.createdAt = volA.createdAt ∧
    (putVolume 5 stA volA).1.updatedAt = 5 := by
  have h := c7_put_upsert 5 stA volA
  exact ⟨h.2.2.1 volA rfl (by decide), h.1⟩

/-- Claim C8 (confirmed): deleting an absent id fails with not-found and
leaves the whole state unchanged; deleting a present id removes exactly
that volume record, leaving every other volume, all snapshot histories
(including the deleted volume's) and all checkpoint manifests
unchanged. -/
theorem c8_delete_frame (st : FileState) (id : String) :
    (mapLookup id st.volumes = none →
      deleteVolume st id = (some .volumeNotFound, st)) ∧
    (∀ v, mapLookup id st.volumes = some v →
      (deleteVolume st id).1 = none ∧
      mapLookup id (deleteVolume st id).2.volumes = none ∧
      (∀ id', id' ≠ id →
        mapLookup id' (deleteVolume st id).2.volumes = mapLookup id' st.volumes) ∧
      (deleteVolume st id).2.snapshots = st.snapshots ∧
      (deleteVolume st id).2.checkpoints = st.checkpoints) := by
  constructor
  · intro h
    simp [deleteVolume, h]
  · intro v hv
    refine ⟨?_, ?_, ?_, ?_, ?_⟩ <;> simp [deleteVolume, hv, mapLookup_erase]
    intro id' hne
    simp [mapLookup_erase, hne]

/-- Witness for C8: deleting `vol-1` from `stA` succeeds and leaves the
snapshot and checkpoint collections unchanged. -/
theorem c8_delete_frame_witness :
    (deleteVolume stA "vol-1").1 = none ∧
    mapLookup "vol-1" (deleteVolume stA "vol-1").2.volumes = none ∧
    (deleteVolume stA "vol-1").2.snapshots = stA.snapshots := by
  have h := (c8_delete_frame stA "vol-1").2 volA rfl
  exact ⟨h.1, h.2.1, h.2.2.2.1⟩

/-- Counterexample for C6: in authenticated mode a detach by a caller
other than the owner fails with `principal_mismatch`, so not-found is
not the only failure condition of detach. -/
theorem c6_counterexample :
    handleDetachVolume 7 (some "B") stA "vol-1" = .error .principalMismatch := by
  rfl

/-- Claim C6 (corrected): detach of an existing volume succeeds from
every attach state when the server is unauthenticated or the caller is
the owner, clearing the session and forcing `available`; detaching an
already-available volume changes nothing but `updated_at` (so a repeat
detach at the same instant is a no-op on the record); the failure
conditions are an unknown volume id and, in authenticated mode, a
non-owner caller (`principal_mismatch`). -/
theorem c6_detach_semantics (now : Time) (auth : Option String) (st : FileState)
    (id : String) :
    (mapLookup id st.volumes = none →
      handleDetachVolume now auth st id = .error .notFound) ∧
    (∀ v p, mapLookup id st.volumes = some v → auth = some p →
      v.ownerPrincipal ≠ p →
      handleDetachVolume now auth st id = .error .principalMismatch) ∧
    (∀ v, mapLookup id st.volumes = some v → v.volumeID = id →
      checkOwner auth v = .ok () →
      handleDetachVolume now auth st id =
        .ok (detachedVol v now,
             { st with volumes := mapInsert id (detachedVol v now) st.volumes })) ∧
    (∀ v, mapLookup id st.volumes = some v → v.volumeID = id →
      checkOwner auth v = .ok () →
      v.attachState = "available" → v.attachSession = none →
      v.mountHandle.state = "available" → v.createdAt ≠ 0 →
      handleDetachVolume now auth st id =
        .ok ({ v with updatedAt := now },
             { st with volumes := mapInsert id { v with updatedAt := now } st.volumes })) := by
  have hmain : ∀ v, mapLookup id st.volumes = some v → v.volumeID = id →
      checkOwner auth v = .ok () →
      handleDetachVolume now auth st id =
        .ok (detachedVol v now,
             { st with volumes := mapInsert id (detachedVol v now) st.volumes }) := by
    intro v hv hkey hchk
    simp [handleDetachVolume, hv, hchk, putVolume, detachedVol, hkey]
  refine ⟨?_, ?_, hmain, ?_⟩
  · intro h
    simp [handleDetachVolume, h]
  · intro v p hv hauth hne
    subst hauth
    simp [handleDetachVolume, hv, checkOwner, hne]
  · intro v hv hkey hchk h1 h2 h3 h4
    have heq : detachedVol v now = { v with updatedAt := now } := by
      cases v with
      | mk vid owner cls quota pp em mh as' sess ca ua =>
        cases mh
        simp only [detachedVol] at *
        simp_all [if_neg h4]
    rw [← heq]
    exact hmain v hv hkey hchk

/-- Witness for C6: detaching the already-available `volA` (as its
owner is irrelevant in unauthenticated mode) succeeds and changes only
`updated_at`. -/
theorem c6_detach_semantics_witness :
    handleDetachVolume 9 none stA "vol-1" =
      .ok ({ volA with updatedAt := 9 },
           { stA with volumes := mapInsert "vol-1" { volA with updatedAt := 9 } stA.volumes }) := by
  exact (c6_detach_semantics 9 none stA "vol-1").2.2.2 volA rfl rfl rfl rfl rfl rfl
    (by decide)

/-- Counterexample for C1: an attach request authenticated as `B` on a
volume owned by `A` succeeds when the request body supplies
`principal = "A"` — the handler compares the body principal (not the
authenticated one) against the owner, so the failure is not independent
of what principal the request body supplies. -/
theorem c1_counterexample :
    isOkB (handleAttachVolume 5 "u" (some "B") stA "vol-1" ⟨ "A", "s1", "e"⟩) = true := by
  rfl

/-- Claim C1 (corrected): on a volume owned by `A`, get, detach,
add-snapshot and delete requests authenticated as `B ≠ A` fail with
`principal_mismatch`, and attach authenticated as `B` fails with
`principal_mismatch` whenever the request body supplies no principal or
a principal other than `A` (a body naming the owner `A` is accepted
regardless of the authenticated principal); each identical request
authenticated as `A` succeeds. -/
theorem c1_ownership_enforcement (st : FileState) (id : String) (v : Volume)
    (A B : String) (now : Time) (uuid sid ce note : String)
    (hv : mapLookup id st.volumes = some v) (howner : v.ownerPrincipal = A)
    (hne : B ≠ A) :
    handleGetVolume (some B) st id = .error .principalMismatch ∧
    handleGetVolume (some A) st id = .ok v ∧
    (∀ q, q = "" ∨ q ≠ A →
      handleAttachVolume now uuid (some B) st id ⟨q, sid, ce⟩ =
        .error .principalMismatch) ∧
    isOkB (handleAttachVolume now uuid (some A) st id ⟨ "", sid, ce⟩) = true ∧
    handleDetachVolume now (some B) st id = .error .principalMismatch ∧
    isOkB (handleDetachVolume now (some A) st id) = true ∧
    handleCreateSnapshot now uuid (some B) st id note = .error .principalMismatch ∧
    isOkB (handleCreateSnapshot now uuid (some A) st id note) = true ∧
    handleDeleteVolume (some B) st id = .error .principalMismatch ∧
    isOkB (handleDeleteVolume (some A) st id) = true := by
  have hBA : A ≠ B := Ne.symm hne
  have hB : checkOwner (some B) v = .error .principalMismatch := by
    simp [checkOwner, howner, hBA]
  have hA : checkOwner (some A) v = .ok () := by
    simp [checkOwner, howner]
  refine ⟨?_, ?_, ?_, ?_, ?_, ?_, ?_, ?_, ?_, ?_⟩
  · simp [handleGetVolume, hv, hB]
  · simp [handleGetVolume, hv, hA]
  · intro q hq
    by_cases hq0 : q = ""
    · subst hq0
      simp [handleAttachVolume, hv, howner, hne]
    · have hqa : q ≠ A := hq.resolve_left hq0
      simp [handleAttachVolume, hv, hq0, howner, hqa]
  · simp [handleAttachVolume, hv, howner, isOkB]
  · simp [handleDetachVolume, hv, hB]
  · simp [handleDetachVolume, hv, hA, isOkB]
  · simp [handleCreateSnapshot, hv, hB]
  · simp [handleCreateSnapshot, hv, hA, addSnapshot, isOkB]
  · simp [handleDeleteVolume, hv, howner, hBA]
  · simp [handleDeleteVolume, hv, howner, deleteVolume, isOkB]

/-- Witness for C1: on `stA` (volume `vol-1` owned by `A`), a get as
`B` fails with `principal_mismatch` and a get as `A` returns the
record; a detach as `A` succeeds. -/
theorem c1_ownership_enforcement_witness :
    handleGetVolume (some "B") stA "vol-1" = .error .principalMismatch ∧
    handleGetVolume (some "A") stA "vol-1" = .ok volA ∧
    isOkB (handleDetachVolume 3 (some "A") stA "vol-1") = true := by
  have h := c1_ownership_enforcement stA "vol-1" volA "A" "B" 3 "u" "s" "c" "n" rfl rfl
    (by decide)
  exact ⟨h.1, h.2.1, h.2.2.2.2.2.1⟩

/-- Claim C10 (confirmed): in authenticated mode, existence is checked
before ownership for get, attach, detach, add-snapshot and delete —
any principal probing an absent volume id receives not-found, while the
same principal probing an existing volume owned by someone else
receives `principal_mismatch`. -/
theorem c10_existence_before_ownership (st : FileState) (id p : String)
    (now : Time) (uuid : String) :
    (mapLookup id st.volumes = none →
      handleGetVolume (some p) st id = .error .notFound ∧
      handleAttachVolume now uuid (some p) st id ⟨ "", "", ""⟩ = .error .notFound ∧
      handleDetachVolume now (some p) st id = .error .notFound ∧
      handleCreateSnapshot now uuid (some p) st id "" = .error .notFound ∧
      handleDeleteVolume (some p) st id = .error .notFound) ∧
    (∀ v, mapLookup id st.volumes = some v → v.ownerPrincipal ≠ p →
      handleGetVolume (some p) st id = .error .principalMismatch ∧
      handleAttachVolume now uuid (some p) st id ⟨ "", "", ""⟩ =
        .error .principalMismatch ∧
      handleDetachVolume now (some p) st id = .error .principalMismatch ∧
      handleCreateSnapshot now uuid (some p) st id "" = .error .principalMismatch ∧
      handleDeleteVolume (some p) st id = .error .principalMismatch) := by
  constructor
  · intro h
    refine ⟨?_, ?_, ?_, ?_, ?_⟩ <;> simp [handleGetVolume, handleAttachVolume,
      handleDetachVolume, handleCreateSnapshot, handleDeleteVolume, h]
  · intro v hv hne
    have hpo : p ≠ v.ownerPrincipal := Ne.symm hne
    refine ⟨?_, ?_, ?_, ?_, ?_⟩ <;> simp [handleGetVolume, handleAttachVolume,
      handleDetachVolume, handleCreateSnapshot, handleDeleteVolume, checkOwner,
      hv, hne, hpo]

/-- Witness for C10: probing the empty store with any id yields
not-found for all five operations. -/
theorem c10_existence_before_ownership_witness :
    handleGetVolume (some "p") FileState.empty "nope" = .error .notFound ∧
    handleAttachVolume 0 "u" (some "p") FileState.empty "nope" ⟨ "", "", ""⟩ =
      .error .notFound ∧
    handleDetachVolume 0 (some "p") FileState.empty "nope" = .error .notFound ∧
    handleCreateSnapshot 0 "u" (some "p") FileState.empty "nope" "" = .error .notFound ∧
    handleDeleteVolume (some "p") FileState.empty "nope" = .error .notFound := by
  exact (c10_existence_before_ownership FileState.empty "nope" "p" 0 "u").1 rfl

theorem toLower_hex : ∀ c ∈ hexDigits, Char.toLower c ∈ lowerHexDigits := by
  decide

/-- Claim C9 (confirmed): a successful create-volume request yields a
record with `class` defaulted to `persistent` and `export_mode`
defaulted to `fs` when omitted, `attach_state = available`, a volume id
of the form `vol-` followed by eight lowercase hex characters (given
that the uuid starts with eight hex digits, as `uuid.NewString` output
does), and a mount-handle host path equal to
`/run/aionfs/mounts/<volume_id>`. -/
theorem c9_create_volume_shape (now : Time) (uuid : String) (auth : Option String)
    (st : FileState) (req : CreateVolumeRequest) (v : Volume) (st' : FileState)
    (h : handleCreateVolume now uuid auth st req = .ok (v, st'))
    (hlen : 8 ≤ uuid.data.length)
    (hhex : ∀ c ∈ uuid.data.take 8, c ∈ hexDigits) :
    v.attachState = "available" ∧
    (req.class' = "" → v.class' = "persistent") ∧
    (req.class' ≠ "" → v.class' = req.class') ∧
    (req.exportMode = "" → v.exportMode = "fs") ∧
    (req.exportMode ≠ "" → v.exportMode = req.exportMode) ∧
    v.volumeID = "vol-" ++ lower8 uuid ∧
    (lower8 uuid).data.length = 8 ∧
    (∀ c ∈ (lower8 uuid).data, c ∈ lowerHexDigits) ∧
    v.mountHandle.hostPath = "/run/aionfs/mounts/" ++ v.volumeID := by
  have hlen8 : (lower8 uuid).data.length = 8 := by
    simp only [lower8, List.length_map, List.length_take]
    exact Nat.min_eq_left hlen
  have hlow : ∀ c ∈ (lower8 uuid).data, c ∈ lowerHexDigits := by
    intro c hc
    simp only [lower8, List.mem_map] at hc
    obtain ⟨c0, hc0, rfl⟩ := hc
    exact toLower_hex c0 (hhex c0 hc0)
  simp only [handleCreateVolume] at h
  split at h
  · exact Except.noConfusion h
  · injection h with h
    have hv : v = (putVolume now st _).1 := (congrArg Prod.fst h).symm
    rw [hv]
    refine ⟨rfl, ?_, ?_, ?_, ?_, rfl, hlen8, hlow, rfl⟩ <;> intro hreq <;>
      simp [putVolume, hreq]

/-- Witness for C9: the spec's example create request (empty class and
export mode, uuid `0123abcd-e`) produces an `available` record whose
host path extends its volume id. -/
theorem c9_create_volume_shape_witness :
    volW.attachState = "available" ∧
    volW.mountHandle.hostPath = "/run/aionfs/mounts/" ++ volW.volumeID ∧
    volW.class' = "persistent" ∧ volW.exportMode = "fs" := by
  have h := c9_create_volume_shape 1 "0123abcd-e" none FileState.empty reqW volW stW
    (by rfl) (by decide) (by decide)
  exact ⟨h.1, h.2.2.2.2.2.2.2.2, h.2.1 rfl, h.2.2.2.1 rfl⟩

/-- Claim C4 (confirmed): a checkpoint over a single volume with no
prior snapshots creates exactly one snapshot (with the auto-generated
note) as a side effect and puts its id in the manifest, leaving other
volumes' histories untouched; a checkpoint over a volume that already
has snapshots creates none and reuses the id of the latest existing
snapshot. -/
theorem c4_checkpoint_snapshot (now : Time) (fresh : Nat → String) (mu : String)
    (auth : Option String) (st : FileState) (vid note : String) (vol : Volume)
    (hvol : mapLookup vid st.volumes = some vol)
    (hown : checkOwner auth vol = .ok ()) :
    isOkB (handleCreateCheckpoint now fresh mu auth st ⟨[vid], note⟩) = true ∧
    (listSnapshots st vid = [] →
      ∀ cp st',
        handleCreateCheckpoint now fresh mu auth st ⟨[vid], note⟩ = .ok (cp, st') →
        cp.snapshotIDs = ["snap-" ++ lower8 (fresh 0)] ∧
        listSnapshots st' vid =
          [{ snapshotID := "snap-" ++ lower8 (fresh 0), volumeID := vid,
             createdAt := now, note := "auto-generated for checkpoint" }] ∧
        (∀ w, w ≠ vid → listSnapshots st' w = listSnapshots st w)) ∧
    (∀ snap, latestSnapshot st vid = some snap →
      ∀ cp st',
        handleCreateCheckpoint now fresh mu auth st ⟨[vid], note⟩ = .ok (cp, st') →
        cp.snapshotIDs = [snap.snapshotID] ∧ st'.snapshots = st.snapshots) := by
  refine ⟨?_, ?_, ?_⟩
  · cases hlat : latestSnapshot st vid with
    | none =>
      simp [handleCreateCheckpoint, collectSnapshotIDs, hvol, hown, hlat,
        addSnapshot, putCheckpoint, isOkB]
    | some snap =>
      simp [handleCreateCheckpoint, collectSnapshotIDs, hvol, hown, hlat,
        putCheckpoint, isOkB]
  · intro hemp cp st' h
    have hemp' : (mapLookup vid st.snapshots).getD [] = [] := hemp
    have hlat : latestSnapshot st vid = none := by
      simp [latestSnapshot, listSnapshots, hemp']
    simp only [handleCreateCheckpoint, collectSnapshotIDs, hvol, hown, hlat,
      addSnapshot, hemp', List.nil_append, putCheckpoint] at h
    injection h with h
    injection h with hcp hst'
    subst hcp
    subst hst'
    refine ⟨rfl, ?_, ?_⟩
    · simp [listSnapshots, mapLookup_insert]
    · intro w hw
      simp [listSnapshots, mapLookup_insert, hw]
  · intro snap hlat cp st' h
    simp only [handleCreateCheckpoint, collectSnapshotIDs, hvol, hown, hlat,
      putCheckpoint] at h
    injection h with h
    injection h with hcp hst'
    subst hcp
    subst hst'
    exact ⟨rfl, rfl⟩

/-- Witness for C4: checkpointing `stA` (one volume, no snapshots)
yields a manifest referencing the single auto-created snapshot, whose
history now has exactly one entry. -/
theorem c4_checkpoint_snapshot_witness :
    cpW.snapshotIDs = ["snap-aaaabbbb"] ∧ listSnapshots stW4 "vol-1" = [snapW] := by
  have h := c4_checkpoint_snapshot 2 freshW "mu" none stA "vol-1" "" volA rfl rfl
  have hstep : handleCreateCheckpoint 2 freshW "mu" none stA ⟨["vol-1"], ""⟩ =
      .ok (cpW, stW4) := by rfl
  have hres := h.2.1 rfl cpW stW4 hstep
  exact ⟨hres.1, hres.2.1⟩

theorem cpIncluded_iff (st : FileState) (owned : List String) (l : List String) :
    cpIncluded st owned l = true ↔
      ∀ sid ∈ l, ∀ vid, volumeIDForSnapshot st sid = some vid → vid ∈ owned := by
  induction l with
  | nil => simp [cpIncluded]
  | cons sid rest ih =>
    simp only [cpIncluded]
    cases hres : volumeIDForSnapshot st sid with
    | none =>
      rw [ih]
      constructor
      · intro h s hs
        rcases List.mem_cons.mp hs with rfl | hs'
        · intro vid hvid
          rw [hres] at hvid
          cases hvid
        · exact h s hs'
      · intro h s hs
        exact h s (List.mem_cons_of_mem sid hs)
    | some vid0 =>
      dsimp only
      by_cases hin : owned.contains vid0 = true
      · rw [if_pos hin, ih]
        have hmem : vid0 ∈ owned := List.mem_of_elem_eq_true hin
        constructor
        · intro h s hs
          rcases List.mem_cons.mp hs with rfl | hs'
          · intro vid hvid
            rw [hres] at hvid
            cases hvid
            exact hmem
          · exact h s hs'
        · intro h s hs
          exact h s (List.mem_cons_of_mem sid hs)
      · rw [if_neg hin]
        constructor
        · intro h
          exact Bool.noConfusion h
        · intro h
          exact absurd
            (List.elem_eq_true_of_mem (h sid (List.mem_cons_self sid rest) vid0 hres)) hin

/-- Counterexample for C5: a manifest one of whose snapshot ids belongs
to no volume at all is returned, not excluded — the handler skips ids
the snapshot index cannot resolve. -/
theorem c5_counterexample :
    volumeIDForSnapshot stC5 "snap-x" = none ∧
    handleListCheckpoints (some "P") stC5 = [cpDangling] := by
  exact ⟨rfl, rfl⟩

/-- Claim C5 (corrected): in authenticated mode, list-checkpoints
returns exactly those manifests (whole, in order, never redacted) for
which every referenced snapshot id that resolves to an owning volume
resolves to a volume owned by the caller; a snapshot id that belongs to
no volume does not exclude its manifest. -/
theorem c5_list_checkpoints (st : FileState) (p : String) :
    (handleListCheckpoints (some p) st).Sublist (listCheckpoints st) ∧
    (∀ cp, cp ∈ handleListCheckpoints (some p) st ↔
      cp ∈ listCheckpoints st ∧
      ∀ sid ∈ cp.snapshotIDs, ∀ vid, volumeIDForSnapshot st sid = some vid →
        vid ∈ (listVolumesByOwner st p).map (fun v => v.volumeID)) := by
  constructor
  · simp only [handleListCheckpoints]
    exact List.filter_sublist _
  · intro cp
    simp only [handleListCheckpoints, List.mem_filter, cpIncluded_iff]

/-- Witness for C5: the dangling manifest of `stC5` is a member of the
authenticated listing, by the filter characterization. -/
theorem c5_list_checkpoints_witness :
    cpDangling ∈ handleListCheckpoints (some "P") stC5 := by
  refine ((c5_list_checkpoints stC5 "P").2 cpDangling).mpr ⟨?_, ?_⟩
  · simp [listCheckpoints, stC5]
  · intro sid hsid vid hvid
    have : sid = "snap-x" := by simpa [cpDangling] using hsid
    subst this
    simp [volumeIDForSnapshot, stC5] at hvid
